import Mathlib

/-!
Shallow embedding of the ohms-law simulation model and the view logic its
specification talks about.  JavaScript numbers are idealised as exact
rationals (ℚ); the AXON property framework is modelled by explicit state
passing, and its change-notification behaviour (a property notifies its
listeners only when its stored value actually changes) by explicit
notification lists.
-/

namespace OhmsLaw

/-- Modelled from the spec: DOT RangeWithValue, a closed numeric range together
with a default value, used by the missing OhmsLawConstants module. -/
structure RangeWithValue where
  min : ℚ
  max : ℚ
  defaultValue : ℚ

/-- Modelled from the spec: OhmsLawConstants.VOLTAGE_RANGE, the configured
voltage range [0.1, 9.9] volts with default value 4.5 (the OhmsLawConstants
module is not among the provided sources). -/
def VOLTAGE_RANGE : RangeWithValue := ⟨1/10, 99/10, 9/2⟩

/-- Modelled from the spec: OhmsLawConstants.RESISTANCE_RANGE, the configured
resistance range [10, 1000] ohms with default value 500 (the OhmsLawConstants
module is not among the provided sources). -/
def RESISTANCE_RANGE : RangeWithValue := ⟨10, 1000, 500⟩

/-- State of OhmsLawModel (src/unnamed/part_000).  The constructor assigns
voltageProperty, resistanceProperty and the derived currentProperty, but it
never assigns soundActiveProperty, even though reset() reads it: that field is
therefore an Option, with none standing for the JavaScript value undefined. -/
structure OhmsLawModel where
  voltage : ℚ
  resistance : ℚ
  soundActive : Option Unit
deriving DecidableEq, Repr

/-- The freshly constructed model: both NumberProperty instances start at the
default value of their range, and soundActiveProperty is left undefined. -/
def OhmsLawModel.init : OhmsLawModel :=
  { voltage := VOLTAGE_RANGE.defaultValue
    resistance := RESISTANCE_RANGE.defaultValue
    soundActive := none }

/-- DerivedProperty derivation from part_000: 1000 * voltage / resistance,
the current in milliamps. -/
def currentValue (m : OhmsLawModel) : ℚ :=
  1000 * m.voltage / m.resistance

/-- Reading currentProperty.  DerivedProperty recomputes eagerly on every
dependency change, so the read always sees the derivation of the stored
voltage and resistance. -/
def getCurrent (m : OhmsLawModel) : ℚ := currentValue m

/-- voltageProperty.set: a plain NumberProperty constructed without a range,
so the value is stored unchanged, with no clamping and no error. -/
def setVoltage (m : OhmsLawModel) (v : ℚ) : OhmsLawModel :=
  { m with voltage := v }

/-- resistanceProperty.set: a plain NumberProperty constructed without a
range, so the value is stored unchanged, with no clamping and no error. -/
def setResistance (m : OhmsLawModel) (r : ℚ) : OhmsLawModel :=
  { m with resistance := r }

/-- The values delivered to a listener of currentProperty by one setVoltage
call.  AXON Property.set is a no-op when the new value equals the stored one,
and DerivedProperty notifies its listeners only when the recomputed derived
value differs from the previous one; otherwise the listener is called exactly
once with the freshly derived value. -/
def currentNotificationsOnSetVoltage (m : OhmsLawModel) (v : ℚ) : List ℚ :=
  if v = m.voltage then []
  else if currentValue (setVoltage m v) = currentValue m then []
  else [currentValue (setVoltage m v)]

/-- The state mutations performed by OhmsLawModel.reset (part_000 lines
44-48) before it reaches soundActiveProperty: voltageProperty.reset() and
resistanceProperty.reset() restore the initial (default) values. -/
def resetEffect (m : OhmsLawModel) : OhmsLawModel :=
  { m with
    voltage := VOLTAGE_RANGE.defaultValue
    resistance := RESISTANCE_RANGE.defaultValue }

/-- OhmsLawModel.reset: resets voltage and resistance, then evaluates
this.soundActiveProperty.reset().  Because the constructor never assigns
soundActiveProperty, that member access is undefined and the call raises a
TypeError after the first two resets have already taken effect. -/
def reset (m : OhmsLawModel) : Except String OhmsLawModel :=
  match (resetEffect m).soundActive with
  | some _ => Except.ok (resetEffect m)
  | none => Except.error "TypeError: this.soundActiveProperty is undefined"

/-- The model states reachable through the public mutation entry points. -/
inductive Reachable : OhmsLawModel → Prop
  | init : Reachable OhmsLawModel.init
  | setV {m : OhmsLawModel} (v : ℚ) : Reachable m → Reachable (setVoltage m v)
  | setR {m : OhmsLawModel} (r : ℚ) : Reachable m → Reachable (setResistance m r)
  | reset {m : OhmsLawModel} : Reachable m → Reachable (resetEffect m)

namespace Util

/-- DOT Util.linear: the linear map taking a1 to b1 and a2 to b2, evaluated
at a3, written exactly as in the library: (b2 - b1) / (a2 - a1) * (a3 - a1) + b1. -/
def linear (a1 a2 b1 b2 a3 : ℚ) : ℚ :=
  (b2 - b1) / (a2 - a1) * (a3 - a1) + b1

/-- DOT Util.roundSymmetric: rounds to the nearest integer with halves going
away from zero (Math.round applied to the absolute value, with the sign put
back). -/
def roundSymmetric (x : ℚ) : ℤ :=
  if x < 0 then -⌊-x + 1/2⌋ else ⌊x + 1/2⌋

/-- DOT Util.clamp: clips value into the closed interval [lo, hi]. -/
def clamp (value lo hi : ℚ) : ℚ :=
  if value < lo then lo else if value > hi then hi else value

end Util

/-- DOT LinearFunction: the linear map from [a1, a2] to [b1, b2] evaluated
through Util.linear, with the output clamped to [b1, b2] when the clamp flag
is set. -/
def LinearFunctionMap (a1 a2 b1 b2 : ℚ) (clampOutput : Bool) (a3 : ℚ) : ℚ :=
  let b3 := Util.linear a1 a2 b1 b2 a3
  if clampOutput then Util.clamp b3 b1 b2 else b3

/-- The configuration WireBox.getArrowSizeDescription reads: the minimum
arrow height measured at construction time, the wire height constant
OhmsLawConstants.WIRE_HEIGHT, and the ordered descriptor list
OhmsLawConstants.RELATIVE_SIZE_STRINGS. -/
structure WireBoxConfig where
  minArrowHeight : ℚ
  wireHeight : ℚ
  relativeSizeStrings : List String

/-- The index computed inside WireBox.getArrowSizeDescription: round the
linear map of the arrow height from [minArrowHeight, maxArrowHeightThreshold]
onto [0, length - 1], then override with the last index whenever the height
exceeds the threshold (twice the wire height). -/
def arrowSizeIndex (cfg : WireBoxConfig) (height : ℚ) : ℤ :=
  let maxArrowHeightThreshold := cfg.wireHeight * 2
  let n := cfg.relativeSizeStrings.length
  let index := Util.roundSymmetric
    (Util.linear cfg.minArrowHeight maxArrowHeightThreshold 0 ((n : ℚ) - 1) height)
  if height > maxArrowHeightThreshold then (n : ℤ) - 1 else index

/-- WireBox.getArrowSizeDescription: look the computed index up in
RELATIVE_SIZE_STRINGS and lowercase it.  A JavaScript lookup outside the
array bounds yields undefined and the toLowerCase call then raises, which the
embedding renders as none. -/
def getArrowSizeDescription (cfg : WireBoxConfig) (height : ℚ) : Option String :=
  let index := arrowSizeIndex cfg height
  if index < 0 then none
  else (cfg.relativeSizeStrings[index.toNat]?).map String.toLower

/-- The descriptor-selection algorithm as the specification words it:
linearly map the bounded height onto an index into the ordered descriptor
list, rounding, and above the threshold (twice the wire height) clamp to the
last descriptor. -/
def arrowSizeDescriptionSpec (cfg : WireBoxConfig) (height : ℚ) : Option String :=
  let maxArrowHeightThreshold := 2 * cfg.wireHeight
  let n := cfg.relativeSizeStrings.length
  if maxArrowHeightThreshold < height then
    cfg.relativeSizeStrings.getLast?.map String.toLower
  else
    let index := Util.roundSymmetric
      ((height - cfg.minArrowHeight) / (maxArrowHeightThreshold - cfg.minArrowHeight)
        * ((n : ℚ) - 1))
    if index < 0 then none
    else (cfg.relativeSizeStrings[index.toNat]?).map String.toLower

/-- ResistorNode constants (src/unnamed/part_001): the dot grid has
DOT_GRID_COLUMNS by DOT_GRID_ROWS cells, and MAX_DOTS is their product.  The
grid dimensions derive from wire geometry constants that are configuration;
they are kept as parameters. -/
def MAX_DOTS (cols rows : ℕ) : ℕ := cols * rows

/-- RESISTANCE_TO_NUM_DOTS from part_001: the clamped LinearFunction sending
the resistance range onto [MAX_DOTS * 0.05, MAX_DOTS] (0.05 written as the
exact rational 5/100). -/
def RESISTANCE_TO_NUM_DOTS (cols rows : ℕ) (resistance : ℚ) : ℚ :=
  LinearFunctionMap RESISTANCE_RANGE.min RESISTANCE_RANGE.max
    ((MAX_DOTS cols rows : ℚ) * (5/100)) (MAX_DOTS cols rows : ℚ) true resistance

/-- The number of dots ResistorNode actually creates: the loops run i from 1
to DOT_GRID_COLUMNS - 1 and j from 1 to DOT_GRID_ROWS - 1, so only
(cols - 1) * (rows - 1) dots exist. -/
def totalDotsCreated (cols rows : ℕ) : ℕ := (cols - 1) * (rows - 1)

/-- The number of visible dots after the resistanceProperty listener in
ResistorNode runs: dot number index is visible exactly when
index < RESISTANCE_TO_NUM_DOTS(resistance), over the created dots (shuffling
the children permutes which dots show, not how many). -/
def numVisibleDots (cols rows : ℕ) (resistance : ℚ) : ℕ :=
  (List.range (totalDotsCreated cols rows)).countP
    (fun (index : ℕ) =>
      decide ((index : ℚ) < RESISTANCE_TO_NUM_DOTS cols rows resistance))

lemma reachable_soundActive_none {m : OhmsLawModel} (h : Reachable m) :
    m.soundActive = none := by
  induction h with
  | init => rfl
  | setV v _ ih => exact ih
  | setR r _ ih => exact ih
  | reset _ ih => exact ih

/-- C1: for every voltage within the configured voltage range and every
resistance within the configured resistance range (hence positive), the
derived current read from the model equals 1000 * voltage / resistance. -/
theorem getCurrent_eq_formula (m : OhmsLawModel)
    (hv1 : VOLTAGE_RANGE.min ≤ m.voltage) (hv2 : m.voltage ≤ VOLTAGE_RANGE.max)
    (hr1 : RESISTANCE_RANGE.min ≤ m.resistance)
    (hr2 : m.resistance ≤ RESISTANCE_RANGE.max) :
    0 < m.resistance ∧ getCurrent m = 1000 * m.voltage / m.resistance := by
  refine ⟨?_, rfl⟩
  have h10 : (10 : ℚ) ≤ m.resistance := hr1
  linarith

/-- Witness for C1: the freshly constructed model has in-range values and its
current reads 1000 * 4.5 / 500. -/
theorem getCurrent_eq_formula_witness :
    0 < OhmsLawModel.init.resistance ∧
    getCurrent OhmsLawModel.init
      = 1000 * OhmsLawModel.init.voltage / OhmsLawModel.init.resistance :=
  getCurrent_eq_formula OhmsLawModel.init
    (by norm_num [OhmsLawModel.init, VOLTAGE_RANGE])
    (by norm_num [OhmsLawModel.init, VOLTAGE_RANGE])
    (by norm_num [OhmsLawModel.init, RESISTANCE_RANGE])
    (by norm_num [OhmsLawModel.init, RESISTANCE_RANGE])

/-- C2: evaluating reset on the freshly constructed model shows the bug: the
first two statements restore voltage and resistance to their defaults, but
the call then raises a TypeError because this.soundActiveProperty was never
assigned by the constructor, so reset does not complete normally. -/
theorem reset_init_raises_typeError :
    reset OhmsLawModel.init
      = Except.error "TypeError: this.soundActiveProperty is undefined" ∧
    (resetEffect OhmsLawModel.init).voltage = VOLTAGE_RANGE.defaultValue ∧
    (resetEffect OhmsLawModel.init).resistance = RESISTANCE_RANGE.defaultValue :=
  ⟨rfl, rfl, rfl⟩

/-- C3 counterexample: setVoltage(-5) with configured range [0.1, 9.9] stores
-5 unchanged; the stored value is not the range minimum 0.1, so no clamping
happens. -/
theorem setVoltage_minus_five_not_clamped :
    (setVoltage OhmsLawModel.init (-5)).voltage = -5 ∧
    ((-5 : ℚ) ≠ VOLTAGE_RANGE.min) := by
  refine ⟨rfl, ?_⟩
  norm_num [VOLTAGE_RANGE]

/-- C3 amended: an out-of-range input to setVoltage or setResistance raises
no error and is stored exactly as given; the model performs no clamping
(range enforcement is left to the range-bound slider controls), so
setVoltage(-5) results in voltage equal to -5. -/
theorem setters_store_value_unchanged (m : OhmsLawModel) (x r : ℚ) :
    (setVoltage m x).voltage = x ∧ (setResistance m r).resistance = r :=
  ⟨rfl, rfl⟩

/-- C4 counterexample: on the fresh model (voltage 4.5, in range), calling
setVoltage(4.5) with the value already stored delivers no notification at all
to an observer of current, so the observer is not invoked exactly once for
every x. -/
theorem setVoltage_same_value_no_notification :
    currentNotificationsOnSetVoltage OhmsLawModel.init (9/2) = [] ∧
    (currentNotificationsOnSetVoltage OhmsLawModel.init (9/2)).length ≠ 1 := by
  constructor <;>
    simp [currentNotificationsOnSetVoltage, OhmsLawModel.init, VOLTAGE_RANGE]

/-- C4 amended: when the resistance is nonzero, an observer of current
receives exactly one notification, carrying the freshly derived value, if the
new voltage differs from the stored one, and none if it is equal; every value
it can receive is the freshly derived one, never one computed from a stale
voltage-resistance pair. -/
theorem currentNotifications_exactly_once_when_changed (m : OhmsLawModel)
    (x : ℚ) (hr : m.resistance ≠ 0) :
    currentNotificationsOnSetVoltage m x
      = (if x = m.voltage then [] else [currentValue (setVoltage m x)]) ∧
    ∀ c ∈ currentNotificationsOnSetVoltage m x,
      c = currentValue (setVoltage m x) := by
  have hkey : x ≠ m.voltage → currentValue (setVoltage m x) ≠ currentValue m := by
    intro hx hc
    apply hx
    have hc' : 1000 * x / m.resistance = 1000 * m.voltage / m.resistance := hc
    rw [div_eq_div_iff hr hr] at hc'
    have hx' := mul_right_cancel₀ hr hc'
    exact mul_left_cancel₀ (by norm_num : (1000 : ℚ) ≠ 0) hx'
  constructor
  · by_cases hx : x = m.voltage
    · simp [currentNotificationsOnSetVoltage, hx]
    · simp [currentNotificationsOnSetVoltage, hx, hkey hx]
  · intro c hc
    by_cases hx : x = m.voltage
    · simp [currentNotificationsOnSetVoltage, hx] at hc
    · simp [currentNotificationsOnSetVoltage, hx, hkey hx] at hc
      exact hc

/-- Witness for C4: on the fresh model (resistance 500 nonzero), setting the
voltage to 9.9 notifies the current observer exactly once with the fresh
value. -/
theorem currentNotifications_exactly_once_when_changed_witness :
    currentNotificationsOnSetVoltage OhmsLawModel.init (99/10)
      = (if (99/10 : ℚ) = OhmsLawModel.init.voltage then []
         else [currentValue (setVoltage OhmsLawModel.init (99/10))]) ∧
    ∀ c ∈ currentNotificationsOnSetVoltage OhmsLawModel.init (99/10),
      c = currentValue (setVoltage OhmsLawModel.init (99/10)) :=
  currentNotifications_exactly_once_when_changed OhmsLawModel.init (99/10)
    (by norm_num [OhmsLawModel.init, RESISTANCE_RANGE])

/-- C5: setting the voltage leaves the resistance unchanged and setting the
resistance leaves the voltage unchanged. -/
theorem setters_independent (m : OhmsLawModel) (v r : ℚ) :
    (setVoltage m v).resistance = m.resistance ∧
    (setResistance m r).voltage = m.voltage :=
  ⟨rfl, rfl⟩

/-- C6: in every reachable model state whose resistance lies in the
configured range (whose lower bound 10 is strictly positive), the divisor of
the current derivation is nonzero, and the derived current is the exact
finite rational with current * resistance = 1000 * voltage. -/
theorem current_derivation_safe (m : OhmsLawModel) (hm : Reachable m)
    (hr1 : RESISTANCE_RANGE.min ≤ m.resistance)
    (hr2 : m.resistance ≤ RESISTANCE_RANGE.max) :
    m.resistance ≠ 0 ∧ currentValue m * m.resistance = 1000 * m.voltage := by
  have h10 : (10 : ℚ) ≤ m.resistance := hr1
  have hne : m.resistance ≠ 0 := by
    intro h0
    rw [h0] at h10
    norm_num at h10
  exact ⟨hne, div_mul_cancel₀ _ hne⟩

/-- Witness for C6: the freshly constructed model is reachable, its
resistance 500 is in range, and its derived current 9 satisfies
9 * 500 = 1000 * 4.5. -/
theorem current_derivation_safe_witness :
    OhmsLawModel.init.resistance ≠ 0 ∧
    currentValue OhmsLawModel.init * OhmsLawModel.init.resistance
      = 1000 * OhmsLawModel.init.voltage :=
  current_derivation_safe OhmsLawModel.init Reachable.init
    (by norm_num [OhmsLawModel.init, RESISTANCE_RANGE])
    (by norm_num [OhmsLawModel.init, RESISTANCE_RANGE])

/-- C7: calling reset twice in succession produces exactly the same final
state, hence the same voltage, resistance and derived current, as calling it
once; the second call also returns the same outcome as the first. -/
theorem reset_idempotent (m : OhmsLawModel) :
    resetEffect (resetEffect m) = resetEffect m ∧
    reset (resetEffect m) = reset m ∧
    currentValue (resetEffect (resetEffect m)) = currentValue (resetEffect m) :=
  ⟨rfl, rfl, rfl⟩

/-- C8: for every arrow height, getArrowSizeDescription computes exactly the
algorithm the specification describes: round the linear map of the height
from [minArrowHeight, maxArrowHeightThreshold] onto an index into the ordered
descriptor list, and for every height strictly above the threshold, which is
twice the wire height, return the last descriptor of the list. -/
theorem getArrowSizeDescription_matches_spec (cfg : WireBoxConfig)
    (height : ℚ) :
    getArrowSizeDescription cfg height = arrowSizeDescriptionSpec cfg height := by
  have hlin : Util.linear cfg.minArrowHeight (cfg.wireHeight * 2) 0
      ((cfg.relativeSizeStrings.length : ℚ) - 1) height
      = (height - cfg.minArrowHeight)
        / (2 * cfg.wireHeight - cfg.minArrowHeight)
        * ((cfg.relativeSizeStrings.length : ℚ) - 1) := by
    unfold Util.linear
    ring
  simp only [getArrowSizeDescription, arrowSizeIndex, arrowSizeDescriptionSpec,
    hlin]
  by_cases hgt : 2 * cfg.wireHeight < height
  · have hgt' : cfg.wireHeight * 2 < height := by linarith
    rw [if_pos hgt', if_pos hgt]
    rcases Nat.eq_zero_or_pos cfg.relativeSizeStrings.length with h0 | h1
    · rw [List.length_eq_zero] at h0
      simp [h0]
    · have hnn : ¬ ((cfg.relativeSizeStrings.length : ℤ) - 1 < 0) := by omega
      rw [if_neg hnn, List.getLast?_eq_getElem?]
      congr 2
      omega
  · have hgt' : ¬ (cfg.wireHeight * 2 < height) := by
      intro h
      exact hgt (by linarith)
    rw [if_neg hgt', if_neg hgt]

/-- C9: for every arrow height at least the minimum arrow height, given the
nonempty descriptor list and a minimum height below the threshold as in the
simulation, the index computed inside getArrowSizeDescription lies within the
bounds of RELATIVE_SIZE_STRINGS, so the assertion in the source holds and the
list indexing is in bounds. -/
theorem arrowSizeIndex_in_bounds (cfg : WireBoxConfig) (height : ℚ)
    (hne : cfg.relativeSizeStrings ≠ [])
    (hlt : cfg.minArrowHeight < cfg.wireHeight * 2)
    (hh : cfg.minArrowHeight ≤ height) :
    0 ≤ arrowSizeIndex cfg height ∧
    arrowSizeIndex cfg height < (cfg.relativeSizeStrings.length : ℤ) := by
  have hn : 1 ≤ cfg.relativeSizeStrings.length := List.length_pos.mpr hne
  simp only [arrowSizeIndex]
  by_cases hgt : height > cfg.wireHeight * 2
  · rw [if_pos hgt]
    omega
  · rw [if_neg hgt]
    have hle : height ≤ cfg.wireHeight * 2 := le_of_not_lt hgt
    set n := cfg.relativeSizeStrings.length with hnn
    set d : ℚ := cfg.wireHeight * 2 - cfg.minArrowHeight with hd
    have hdpos : 0 < d := by
      rw [hd]
      linarith
    have hq : (1 : ℚ) ≤ (n : ℚ) := by exact_mod_cast hn
    have hx0 : 0 ≤ Util.linear cfg.minArrowHeight (cfg.wireHeight * 2) 0
        ((n : ℚ) - 1) height := by
      unfold Util.linear
      have h1 : 0 ≤ ((n : ℚ) - 1 - 0) / d := div_nonneg (by linarith) hdpos.le
      have h2 : 0 ≤ height - cfg.minArrowHeight := by linarith
      have h3 := mul_nonneg h1 h2
      simpa [hd] using h3
    have hx1 : Util.linear cfg.minArrowHeight (cfg.wireHeight * 2) 0
        ((n : ℚ) - 1) height ≤ (n : ℚ) - 1 := by
      unfold Util.linear
      have h1 : 0 ≤ ((n : ℚ) - 1 - 0) / d := div_nonneg (by linarith) hdpos.le
      have h2 : height - cfg.minArrowHeight ≤ d := by
        rw [hd]
        linarith
      have h3 := mul_le_mul_of_nonneg_left h2 h1
      have h4 : ((n : ℚ) - 1 - 0) / d * d = (n : ℚ) - 1 - 0 :=
        div_mul_cancel₀ _ (ne_of_gt hdpos)
      rw [h4] at h3
      simp only [hd] at h3
      linarith [h3]
    set x := Util.linear cfg.minArrowHeight (cfg.wireHeight * 2) 0
      ((n : ℚ) - 1) height
    have hxnn : ¬ (x < 0) := not_lt.mpr hx0
    simp only [Util.roundSymmetric, if_neg hxnn]
    constructor
    · exact Int.le_floor.mpr (by push_cast; linarith)
    · exact Int.floor_lt.mpr (by push_cast; linarith)

/-- Witness for C9: with minimum arrow height 10, wire height 100 and a three
element descriptor list, the index at height 50 is within bounds. -/
theorem arrowSizeIndex_in_bounds_witness :
    0 ≤ arrowSizeIndex ⟨10, 100, ["A", "B", "C"]⟩ 50 ∧
    arrowSizeIndex ⟨10, 100, ["A", "B", "C"]⟩ 50
      < ((["A", "B", "C"] : List String).length : ℤ) :=
  arrowSizeIndex_in_bounds ⟨10, 100, ["A", "B", "C"]⟩ 50
    (by simp) (by norm_num) (by norm_num)

lemma countP_range_lt (T : ℕ) (y : ℚ) :
    (List.range T).countP (fun (i : ℕ) => decide ((i : ℚ) < y))
      = min T ⌈y⌉.toNat := by
  induction T with
  | zero => simp
  | succ T ih =>
    rw [List.range_succ, List.countP_append, ih]
    simp only [List.countP_cons, List.countP_nil]
    by_cases h : (T : ℚ) < y
    · have hT : T < ⌈y⌉.toNat := by
        rw [Int.lt_toNat]
        exact Int.lt_ceil.mpr (by push_cast; exact h)
      simp only [decide_eq_true_eq, if_pos h]
      omega
    · have hT : ¬ T < ⌈y⌉.toNat := by
        rw [Int.lt_toNat]
        intro hc
        exact h (by exact_mod_cast Int.lt_ceil.mp hc)
      simp only [decide_eq_true_eq, if_neg h]
      omega

lemma linearFunctionMap_clamped_mono {a1 a2 b1 b2 : ℚ} (ha : a1 < a2)
    (hb : b1 ≤ b2) {x1 x2 : ℚ} (hx : x1 ≤ x2) :
    LinearFunctionMap a1 a2 b1 b2 true x1
      ≤ LinearFunctionMap a1 a2 b1 b2 true x2 := by
  simp only [LinearFunctionMap, Util.linear, Util.clamp, if_true]
  have hslope : 0 ≤ (b2 - b1) / (a2 - a1) := div_nonneg (by linarith) (by linarith)
  have hy : (b2 - b1) / (a2 - a1) * (x1 - a1) + b1
      ≤ (b2 - b1) / (a2 - a1) * (x2 - a1) + b1 := by
    have h1 := mul_le_mul_of_nonneg_left (by linarith : x1 - a1 ≤ x2 - a1) hslope
    linarith
  split_ifs <;> linarith

lemma resistanceToNumDots_mono (cols rows : ℕ) {r1 r2 : ℚ} (h : r1 ≤ r2) :
    RESISTANCE_TO_NUM_DOTS cols rows r1 ≤ RESISTANCE_TO_NUM_DOTS cols rows r2 := by
  have hM : (0 : ℚ) ≤ (MAX_DOTS cols rows : ℚ) := Nat.cast_nonneg _
  exact linearFunctionMap_clamped_mono
    (by norm_num [RESISTANCE_RANGE]) (by linarith) h

/-- C10 counterexample: with a 2 by 2 dot grid and resistance 1000, the
configured maximum, the clamped linear map evaluates to MAX_DOTS = 4 while
the construction loops only created (2-1)*(2-1) = 1 dot, all of which are
visible, so the number of visible dots does not equal the value of the
clamped linear map. -/
theorem numVisibleDots_ne_linear_map_at_max :
    RESISTANCE_RANGE.min ≤ (1000 : ℚ) ∧ (1000 : ℚ) ≤ RESISTANCE_RANGE.max ∧
    numVisibleDots 2 2 1000 = 1 ∧ RESISTANCE_TO_NUM_DOTS 2 2 1000 = 4 ∧
    ((numVisibleDots 2 2 1000 : ℚ) ≠ RESISTANCE_TO_NUM_DOTS 2 2 1000) := by
  have h1 : numVisibleDots 2 2 1000 = 1 := by
    norm_num [numVisibleDots, totalDotsCreated, RESISTANCE_TO_NUM_DOTS,
      LinearFunctionMap, Util.linear, Util.clamp, MAX_DOTS, RESISTANCE_RANGE,
      List.range_succ, List.countP_cons]
  have h2 : RESISTANCE_TO_NUM_DOTS 2 2 1000 = 4 := by
    norm_num [RESISTANCE_TO_NUM_DOTS, LinearFunctionMap, Util.linear,
      Util.clamp, MAX_DOTS, RESISTANCE_RANGE]
  refine ⟨by norm_num [RESISTANCE_RANGE], by norm_num [RESISTANCE_RANGE],
    h1, h2, ?_⟩
  rw [h1, h2]
  norm_num

/-- C10 amended: for every grid configuration and every resistance, the
number of visible dots equals the smaller of the number of dots the loops
created, (cols - 1) * (rows - 1), and the ceiling of the clamped linear map
of resistance onto [5 percent of MAX_DOTS, MAX_DOTS]; and the visible-dot
count is nondecreasing in the resistance. -/
theorem numVisibleDots_min_formula_and_mono (cols rows : ℕ) :
    (∀ resistance : ℚ, numVisibleDots cols rows resistance
        = min (totalDotsCreated cols rows)
            (⌈RESISTANCE_TO_NUM_DOTS cols rows resistance⌉.toNat)) ∧
    (∀ r1 r2 : ℚ, r1 ≤ r2 →
        numVisibleDots cols rows r1 ≤ numVisibleDots cols rows r2) := by
  constructor
  · intro resistance
    exact countP_range_lt _ _
  · intro r1 r2 h12
    show (List.range _).countP _ ≤ (List.range _).countP _
    rw [countP_range_lt, countP_range_lt]
    have hmap := resistanceToNumDots_mono cols rows h12
    have hceil := Int.toNat_le_toNat (Int.ceil_le_ceil hmap)
    omega

/-- Witness for C10: on the 2 by 2 grid the count at the range minimum obeys
the min-of-ceiling formula and the count never drops when the resistance
rises from 10 to 1000. -/
theorem numVisibleDots_min_formula_and_mono_witness :
    numVisibleDots 2 2 10
      = min (totalDotsCreated 2 2) (⌈RESISTANCE_TO_NUM_DOTS 2 2 10⌉.toNat) ∧
    numVisibleDots 2 2 10 ≤ numVisibleDots 2 2 1000 :=
  ⟨(numVisibleDots_min_formula_and_mono 2 2).1 10,
   (numVisibleDots_min_formula_and_mono 2 2).2 10 1000 (by norm_num)⟩

end OhmsLaw
